import Mathlib

/-!
Shallow embedding of the SkillSwap web application (a skill-exchange
marketplace built on a relational store with row-level security).

The embedding models:
- the data model of `scripts/create-tables.sql` (tables `profiles` and
  `skill_requests`, the `UNIQUE(user_id)` constraint, and the row-level
  security policies);
- `addSkill` and the profile-creation flow of `app/profile/create/page.tsx`;
- `handleRequestAction` of `app/dashboard/page.tsx` (request accept/decline);
- `fetchProfiles` and `handleSendRequest` of the profile view page;
- `applyFilters` of the browse page (search/location/availability filters and
  the four sort orders).

Timestamps are modelled as natural numbers (the JavaScript code only ever
compares them through the monotone `new Date(s).getTime()`), identifiers as
natural numbers, and JavaScript strings as Lean strings with `toLower`
standing in for `toLowerCase` and `trim` for the JavaScript `trim` (they
agree on the ASCII inputs relevant here).
-/

/-- Embeds the JavaScript `String.prototype.trim()`: strip leading and
trailing whitespace. (Implemented structurally over the character list so
that it evaluates inside the kernel; it agrees with JavaScript on the ASCII
whitespace relevant here.) -/
def jsTrim (s : String) : String :=
  ⟨((s.data.dropWhile Char.isWhitespace).reverse.dropWhile Char.isWhitespace).reverse⟩

/-- Embeds the JavaScript `String.prototype.toLowerCase()` (ASCII case
folding, structurally over the character list). -/
def jsToLowerCase (s : String) : String :=
  ⟨s.data.map Char.toLower⟩

/-- Embeds the JavaScript `hay.includes(needle)`: substring containment. -/
def jsIncludes (hay needle : String) : Bool :=
  decide (needle.data <:+: hay.data)

/-- Status column of `skill_requests`; a CHECK constraint in the schema
limits it to one of pending, accepted, declined, completed. -/
inductive RequestStatus where
  | pending
  | accepted
  | declined
  | completed
deriving DecidableEq, Repr

/-- Row of the `profiles` table (also the `Profile` interface of the pages).
Optional columns are `Option`; `skills_offered` and `skills_wanted` are
ordered text arrays. -/
structure Profile where
  id : Nat
  user_id : Nat
  name : String
  email : String
  location : Option String
  bio : Option String
  avatar_url : Option String
  skills_offered : List String
  skills_wanted : List String
  availability : String
  is_public : Bool
  created_at : Nat
  updated_at : Nat
deriving DecidableEq, Repr

/-- Row of the `skill_requests` table (the `SkillRequest` interface). -/
structure SkillRequest where
  id : Nat
  from_user_id : Nat
  to_user_id : Nat
  message : String
  skill_offered : String
  skill_wanted : String
  status : RequestStatus
  created_at : Nat
  updated_at : Nat
deriving DecidableEq, Repr

namespace CreateProfile

/-- Embeds `addSkill` from `app/profile/create/page.tsx` (the identical
function also appears in `app/profile/page.tsx`): an empty or
whitespace-only input is rejected (`if (!skill.trim()) return`), a trimmed
label already present is not added again
(`if (!formData[field].includes(skill.trim()))`), and otherwise the trimmed
label is appended at the end (`[...prev[field], skill.trim()]`). -/
def addSkill (skills : List String) (skill : String) : List String :=
  if jsTrim skill = "" then skills
  else if skills.contains (jsTrim skill) then skills
  else skills ++ [jsTrim skill]

end CreateProfile

/-- C10: addSkill is idempotent with respect to the trimmed skill label:
adding a skill whose trimmed form is already present, or a blank input,
leaves the list unchanged; otherwise the trimmed skill is appended at the
end, preserving the insertion order of existing entries. -/
theorem addSkill_trimmed_dedup_spec (skills : List String) (skill : String) :
    CreateProfile.addSkill (CreateProfile.addSkill skills skill) skill =
      CreateProfile.addSkill skills skill ∧
    (jsTrim skill = "" → CreateProfile.addSkill skills skill = skills) ∧
    (jsTrim skill ∈ skills → CreateProfile.addSkill skills skill = skills) ∧
    (jsTrim skill ≠ "" → jsTrim skill ∉ skills →
      CreateProfile.addSkill skills skill = skills ++ [jsTrim skill]) ∧
    skills <+: CreateProfile.addSkill skills skill := by
  unfold CreateProfile.addSkill
  by_cases hblank : jsTrim skill = ""
  · simp [hblank]
  · by_cases hmem : jsTrim skill ∈ skills
    · simp [hblank, hmem]
    · simp [hblank, hmem]

/-- Witness for C10 at concrete inputs: a blank input, a duplicate (up to
trimming), and a genuinely new skill. -/
theorem addSkill_trimmed_dedup_spec_witness :
    CreateProfile.addSkill ["React"] "   " = ["React"] ∧
    CreateProfile.addSkill ["React"] " React " = ["React"] ∧
    CreateProfile.addSkill ["React"] "Go" = ["React", "Go"] :=
  ⟨(addSkill_trimmed_dedup_spec ["React"] "   ").2.1 (by decide),
   (addSkill_trimmed_dedup_spec ["React"] " React ").2.2.1 (by decide),
   by simpa using (addSkill_trimmed_dedup_spec ["React"] "Go").2.2.2.1 (by decide) (by decide)⟩

namespace Browse

/-- Embeds the `matchesSearch` clause of `applyFilters` on the browse page:
the term matches when it is empty, or is a case-insensitive substring of
some entry of `skills_offered`, of some entry of `skills_wanted`, or of the
profile name. -/
def matchesSearch (profile : Profile) (searchTerm : String) : Bool :=
  searchTerm == "" ||
  profile.skills_offered.any
    (fun skill => jsIncludes (jsToLowerCase skill) (jsToLowerCase searchTerm)) ||
  profile.skills_wanted.any
    (fun skill => jsIncludes (jsToLowerCase skill) (jsToLowerCase searchTerm)) ||
  jsIncludes (jsToLowerCase profile.name) (jsToLowerCase searchTerm)

/-- Embeds the `matchesLocation` clause of `applyFilters`. The source guard
`profile.location && profile.location.toLowerCase().includes(...)` treats
both a missing location and the empty string as falsy, hence the inner
emptiness test. -/
def matchesLocation (profile : Profile) (locationFilter : String) : Bool :=
  locationFilter == "" ||
  (match profile.location with
   | none => false
   | some loc => loc != "" && jsIncludes (jsToLowerCase loc) (jsToLowerCase locationFilter))

/-- Embeds the `matchesAvailability` clause of `applyFilters`: the sentinel
`"all"` matches everything, otherwise availability must equal the filter
case-insensitively. -/
def matchesAvailability (profile : Profile) (availabilityFilter : String) : Bool :=
  availabilityFilter == "all" ||
  jsToLowerCase profile.availability == jsToLowerCase availabilityFilter

/-- Embeds the comparator passed to `filtered.sort` on the browse page: a
negative result puts `a` first, `localeCompare` is modelled as code-point
comparison, and an unrecognized `sortBy` compares everything equal. -/
def sortCmp (sortBy : String) (a b : Profile) : Int :=
  if sortBy = "newest" then (b.created_at : Int) - (a.created_at : Int)
  else if sortBy = "oldest" then (a.created_at : Int) - (b.created_at : Int)
  else if sortBy = "name" then
    (if a.name < b.name then -1 else if a.name = b.name then 0 else 1)
  else if sortBy = "skills" then
    (b.skills_offered.length : Int) - (a.skills_offered.length : Int)
  else 0

/-- Ordering relation induced by the comparator: `a` may precede `b` when
the comparator does not strictly order `b` before `a`. -/
def sortLe (sortBy : String) (a b : Profile) : Prop :=
  sortCmp sortBy a b ≤ 0

instance instDecSortLe (sortBy : String) : DecidableRel (sortLe sortBy) :=
  fun a b => Int.decLe (sortCmp sortBy a b) 0

/-- Embeds `applyFilters` of the browse page: the three filter clauses are
conjoined in one `filter` pass, then the result is sorted with the
comparator. JavaScript `Array.prototype.sort` is stable, so it is modelled
by the stable `List.insertionSort`. -/
def applyFilters (profiles : List Profile)
    (searchTerm locationFilter availabilityFilter sortBy : String) : List Profile :=
  let filtered := profiles.filter fun profile =>
    matchesSearch profile searchTerm &&
    matchesLocation profile locationFilter &&
    matchesAvailability profile availabilityFilter
  List.insertionSort (sortLe sortBy) filtered

/-- Embeds `fetchProfiles` of the browse page: the query selects rows with
`is_public = true` ordered by `created_at` descending (every row is
readable under the public-profiles SELECT policy). -/
def fetchProfiles (db : List Profile) : List Profile :=
  List.insertionSort (sortLe "newest") (db.filter fun p => p.is_public)

/-- Composition of the browse page: the in-memory filter and sort applied
to the fetched public profiles. -/
def browse (db : List Profile)
    (searchTerm locationFilter availabilityFilter sortBy : String) : List Profile :=
  applyFilters (fetchProfiles db) searchTerm locationFilter availabilityFilter sortBy

end Browse

/-- Profile named in the browse filtering example of the spec: Alice offers
React. -/
def aliceProfile : Profile :=
  { id := 1, user_id := 101, name := "Alice", email := "alice@example.com",
    location := some "Paris", bio := none, avatar_url := none,
    skills_offered := ["React"], skills_wanted := ["Guitar"],
    availability := "flexible", is_public := true,
    created_at := 20, updated_at := 20 }

/-- Profile named in the browse filtering example of the spec: Bob offers
only Cooking. -/
def bobProfile : Profile :=
  { id := 2, user_id := 102, name := "Bob", email := "bob@example.com",
    location := none, bio := none, avatar_url := none,
    skills_offered := ["Cooking"], skills_wanted := [],
    availability := "flexible", is_public := true,
    created_at := 10, updated_at := 10 }

/-- C6: the browse search predicate holds iff the term is empty, or the
term is a case-insensitive substring of the profile name, of some entry of
skills_offered, or of some entry of skills_wanted; in particular a term
lowercasing to "react" matches Alice (offering React) and not Bob (offering
only Cooking). -/
theorem browse_search_predicate_spec (p : Profile) (term : String) :
    (Browse.matchesSearch p term = true ↔
      term = "" ∨
      (jsToLowerCase term).data <:+: (jsToLowerCase p.name).data ∨
      (∃ s ∈ p.skills_offered, (jsToLowerCase term).data <:+: (jsToLowerCase s).data) ∨
      (∃ s ∈ p.skills_wanted, (jsToLowerCase term).data <:+: (jsToLowerCase s).data)) ∧
    (jsToLowerCase term = "react" →
      Browse.matchesSearch aliceProfile term = true ∧
      Browse.matchesSearch bobProfile term = false) := by
  constructor
  · simp only [Browse.matchesSearch, jsIncludes, Bool.or_eq_true, List.any_eq_true,
      decide_eq_true_eq, beq_iff_eq]
    constructor
    · rintro (((h | h) | h) | h)
      · exact Or.inl h
      · exact Or.inr (Or.inr (Or.inl h))
      · exact Or.inr (Or.inr (Or.inr h))
      · exact Or.inr (Or.inl h)
    · rintro (h | h | h | h)
      · exact Or.inl (Or.inl (Or.inl h))
      · exact Or.inr h
      · exact Or.inl (Or.inl (Or.inr h))
      · exact Or.inl (Or.inr h)
  · intro h
    have hne : term ≠ "" := by
      intro he
      rw [he] at h
      exact absurd h (by decide)
    constructor
    · simp only [Browse.matchesSearch, aliceProfile, jsIncludes, h, hne, beq_iff_eq,
        Bool.or_eq_true, List.any_eq_true, decide_eq_true_eq]
      decide
    · simp only [Browse.matchesSearch, bobProfile, jsIncludes, h, beq_iff_eq,
        Bool.or_eq_true, List.any_eq_true, decide_eq_true_eq, Bool.or_eq_false_iff,
        decide_eq_false_iff_not]
      simp [hne]
      decide

/-- Witness for C6: the mixed-case term "ReAcT" matches Alice and not Bob. -/
theorem browse_search_predicate_spec_witness :
    Browse.matchesSearch aliceProfile "ReAcT" = true ∧
    Browse.matchesSearch bobProfile "ReAcT" = false :=
  (browse_search_predicate_spec aliceProfile "ReAcT").2 (by decide)

/-- C8: the browse location predicate holds iff the filter is empty, or the
profile location is present and the filter is a case-insensitive substring
of it; a profile with no location never matches a non-empty filter. -/
theorem browse_location_predicate_spec (p : Profile) (locationFilter : String) :
    (Browse.matchesLocation p locationFilter = true ↔
      locationFilter = "" ∨
      ∃ loc, p.location = some loc ∧
        (jsToLowerCase locationFilter).data <:+: (jsToLowerCase loc).data) ∧
    (p.location = none → locationFilter ≠ "" →
      Browse.matchesLocation p locationFilter = false) := by
  constructor
  · cases hloc : p.location with
    | none => simp [Browse.matchesLocation, hloc, beq_iff_eq]
    | some loc =>
      by_cases hempty : loc = ""
      · subst hempty
        simp only [Browse.matchesLocation, hloc, beq_iff_eq, Bool.or_eq_true]
        constructor
        · rintro (h | h)
          · exact Or.inl h
          · simp at h
        · rintro (h | ⟨l, hl, hinf⟩)
          · exact Or.inl h
          · left
            obtain rfl : ("" : String) = l := by simpa using hl
            have h1 : (locationFilter.data.map Char.toLower) <:+: ([] : List Char) := by
              simpa [jsToLowerCase] using hinf
            have h2 : locationFilter.data = [] := by
              simpa using List.eq_nil_of_infix_nil h1
            exact String.ext h2
      · simp [Browse.matchesLocation, hloc, beq_iff_eq, jsIncludes, hempty, bne_iff_ne]
  · intro hnone hne
    simp [Browse.matchesLocation, hnone, beq_iff_eq, hne]

/-- Witness for C8: Bob has no location and does not match the filter
"Paris"; Alice in Paris matches the lowercase filter "paris". -/
theorem browse_location_predicate_spec_witness :
    Browse.matchesLocation bobProfile "Paris" = false ∧
    Browse.matchesLocation aliceProfile "paris" = true :=
  ⟨(browse_location_predicate_spec bobProfile "Paris").2 rfl (by decide),
   by
    refine ((browse_location_predicate_spec aliceProfile "paris").1).2 ?_
    exact Or.inr ⟨"Paris", rfl, by decide⟩⟩

/-- C9: the browse availability predicate holds iff the filter is the
sentinel "all", or the availability equals the filter case-insensitively;
the comparison is exact, not a substring test, so the flexible Alice does
not match the fragment "flex" yet matches "FLEXIBLE". -/
theorem browse_availability_predicate_spec (p : Profile) (availabilityFilter : String) :
    (Browse.matchesAvailability p availabilityFilter = true ↔
      availabilityFilter = "all" ∨
      jsToLowerCase p.availability = jsToLowerCase availabilityFilter) ∧
    Browse.matchesAvailability aliceProfile "flex" = false ∧
    Browse.matchesAvailability aliceProfile "FLEXIBLE" = true := by
  refine ⟨?_, by decide, by decide⟩
  simp [Browse.matchesAvailability, beq_iff_eq]

/-- Unfolding of the comparator relation for the "newest" sort mode. -/
theorem sortLe_newest_iff (a b : Profile) :
    Browse.sortLe "newest" a b ↔ b.created_at ≤ a.created_at := by
  simp [Browse.sortLe, Browse.sortCmp]

/-- Unfolding of the comparator relation for the "oldest" sort mode. -/
theorem sortLe_oldest_iff (a b : Profile) :
    Browse.sortLe "oldest" a b ↔ a.created_at ≤ b.created_at := by
  simp [Browse.sortLe, Browse.sortCmp]

/-- Unfolding of the comparator relation for the "name" sort mode. -/
theorem sortLe_name_iff (a b : Profile) :
    Browse.sortLe "name" a b ↔ a.name ≤ b.name := by
  have hicmp : Browse.sortCmp "name" a b =
      (if a.name < b.name then -1 else if a.name = b.name then 0 else 1) := rfl
  show Browse.sortCmp "name" a b ≤ 0 ↔ a.name ≤ b.name
  rw [hicmp]
  by_cases hlt : a.name < b.name
  · simp only [hlt, if_true]
    simp [le_of_lt hlt]
  · by_cases heq : a.name = b.name
    · simp only [hlt, heq]
      simp [le_of_eq heq]
    · have hgt : ¬a.name ≤ b.name := fun hle => heq (le_antisymm hle (not_lt.mp hlt))
      simp only [hlt, heq]
      simp [hgt]

/-- Unfolding of the comparator relation for the "skills" sort mode. -/
theorem sortLe_skills_iff (a b : Profile) :
    Browse.sortLe "skills" a b ↔ b.skills_offered.length ≤ a.skills_offered.length := by
  simp [Browse.sortLe, Browse.sortCmp]

/-- Profile with a single offered skill, from the sort example of the spec. -/
def oneSkillProfile : Profile :=
  { id := 3, user_id := 103, name := "One", email := "one@example.com",
    location := none, bio := none, avatar_url := none,
    skills_offered := ["a"], skills_wanted := [],
    availability := "flexible", is_public := true,
    created_at := 1, updated_at := 1 }

/-- Profile with three offered skills, from the sort example of the spec. -/
def threeSkillProfile : Profile :=
  { id := 4, user_id := 104, name := "Three", email := "three@example.com",
    location := none, bio := none, avatar_url := none,
    skills_offered := ["a", "b", "c"], skills_wanted := [],
    availability := "flexible", is_public := true,
    created_at := 2, updated_at := 2 }

/-- Reordering of the conjoined filter conditions. -/
theorem bool_and_shuffle (a b c d : Bool) : ((b && c && d) && a) = (a && b && c && d) := by
  cases a <;> cases b <;> cases c <;> cases d <;> rfl

/-- C7: browse sorting orders the filtered profiles by created_at
descending for "newest", created_at ascending for "oldest", name
lexicographic ascending for "name", and count of skills_offered descending
for "skills" (the three-skill profile sorts before the one-skill profile);
the result is a permutation of the profiles satisfying the conjunction of
the four filter predicates (public, search, location, availability), so the
sort is applied after the ANDed filters. -/
theorem browse_sort_spec (db : List Profile) (s l av : String) :
    (∀ sortBy, List.Perm (Browse.browse db s l av sortBy)
      (db.filter fun p => p.is_public && Browse.matchesSearch p s &&
        Browse.matchesLocation p l && Browse.matchesAvailability p av)) ∧
    (Browse.browse db s l av "newest").Pairwise (fun x y => y.created_at ≤ x.created_at) ∧
    (Browse.browse db s l av "oldest").Pairwise (fun x y => x.created_at ≤ y.created_at) ∧
    (Browse.browse db s l av "name").Pairwise (fun x y => x.name ≤ y.name) ∧
    (Browse.browse db s l av "skills").Pairwise
      (fun x y => y.skills_offered.length ≤ x.skills_offered.length) ∧
    Browse.applyFilters [oneSkillProfile, threeSkillProfile] "" "" "all" "skills" =
      [threeSkillProfile, oneSkillProfile] := by
  refine ⟨?_, ?_, ?_, ?_, ?_, by decide⟩
  · intro sortBy
    show List.Perm (List.insertionSort (Browse.sortLe sortBy)
        ((Browse.fetchProfiles db).filter fun p =>
          Browse.matchesSearch p s && Browse.matchesLocation p l &&
          Browse.matchesAvailability p av)) _
    refine (List.perm_insertionSort _ _).trans ?_
    show List.Perm ((List.insertionSort (Browse.sortLe "newest")
        (db.filter fun p => p.is_public)).filter _) _
    refine ((List.perm_insertionSort _ _).filter _).trans ?_
    rw [List.filter_filter]
    rw [List.filter_congr fun p _ => bool_and_shuffle p.is_public
      (Browse.matchesSearch p s) (Browse.matchesLocation p l)
      (Browse.matchesAvailability p av)]
  · letI ht : IsTotal Profile (Browse.sortLe "newest") :=
      ⟨fun x y => by rw [sortLe_newest_iff, sortLe_newest_iff]; omega⟩
    letI htr : IsTrans Profile (Browse.sortLe "newest") :=
      ⟨fun x y z h1 h2 => by
        rw [sortLe_newest_iff] at h1 h2 ⊢
        omega⟩
    exact (List.sorted_insertionSort (Browse.sortLe "newest") _).imp
      fun h => (sortLe_newest_iff _ _).mp h
  · letI ht : IsTotal Profile (Browse.sortLe "oldest") :=
      ⟨fun x y => by rw [sortLe_oldest_iff, sortLe_oldest_iff]; omega⟩
    letI htr : IsTrans Profile (Browse.sortLe "oldest") :=
      ⟨fun x y z h1 h2 => by
        rw [sortLe_oldest_iff] at h1 h2 ⊢
        omega⟩
    exact (List.sorted_insertionSort (Browse.sortLe "oldest") _).imp
      fun h => (sortLe_oldest_iff _ _).mp h
  · letI ht : IsTotal Profile (Browse.sortLe "name") :=
      ⟨fun x y => by
        rw [sortLe_name_iff, sortLe_name_iff]
        exact le_total x.name y.name⟩
    letI htr : IsTrans Profile (Browse.sortLe "name") :=
      ⟨fun x y z h1 h2 => by
        rw [sortLe_name_iff] at h1 h2 ⊢
        exact le_trans h1 h2⟩
    exact (List.sorted_insertionSort (Browse.sortLe "name") _).imp
      fun h => (sortLe_name_iff _ _).mp h
  · letI ht : IsTotal Profile (Browse.sortLe "skills") :=
      ⟨fun x y => by rw [sortLe_skills_iff, sortLe_skills_iff]; omega⟩
    letI htr : IsTrans Profile (Browse.sortLe "skills") :=
      ⟨fun x y z h1 h2 => by
        rw [sortLe_skills_iff] at h1 h2 ⊢
        omega⟩
    exact (List.sorted_insertionSort (Browse.sortLe "skills") _).imp
      fun h => (sortLe_skills_iff _ _).mp h

namespace Dashboard

/-- Embeds `handleRequestAction` of `app/dashboard/page.tsx` together with
the row-level security policy of `skill_requests`
(`FOR UPDATE USING (auth.uid() = to_user_id)`): the page issues
`UPDATE skill_requests SET status = action, updated_at = now WHERE id = requestId`
as the principal `uid`, and the store applies it exactly to the rows that
match the id filter and that the policy lets `uid` update. No check of the
current status is made anywhere. -/
def handleRequestAction (db : List SkillRequest) (uid : Nat)
    (requestId : Nat) (action : RequestStatus) (now : Nat) : List SkillRequest :=
  db.map fun r =>
    if r.id = requestId ∧ uid = r.to_user_id then
      { r with status := action, updated_at := now }
    else r

end Dashboard

/-- C1: for a request whose status is already declined (or accepted), a
respond call by the receiver succeeds and overwrites the status with the
new decision; no transition-validity check restricts the update to pending
requests (the current status is not inspected at all). -/
theorem respond_overwrites_terminal_status (db : List SkillRequest)
    (uid requestId : Nat) (action : RequestStatus) (now : Nat) (r : SkillRequest)
    (hmem : r ∈ db) (hid : r.id = requestId) (hrecv : uid = r.to_user_id)
    (haction : action = RequestStatus.accepted ∨ action = RequestStatus.declined)
    (hterminal : r.status = RequestStatus.declined ∨ r.status = RequestStatus.accepted) :
    { r with status := action, updated_at := now } ∈
      Dashboard.handleRequestAction db uid requestId action now := by
  unfold Dashboard.handleRequestAction
  refine List.mem_map.mpr ⟨r, hmem, ?_⟩
  rw [if_pos ⟨hid, hrecv⟩]

/-- Witness for C1: accepting an already-declined request overwrites its
status to accepted. -/
theorem respond_overwrites_terminal_status_witness :
    { id := 5, from_user_id := 101, to_user_id := 102, message := "hi",
      skill_offered := "React", skill_wanted := "Cooking",
      status := RequestStatus.accepted, created_at := 3,
      updated_at := 9 : SkillRequest } ∈
      Dashboard.handleRequestAction
        [{ id := 5, from_user_id := 101, to_user_id := 102, message := "hi",
           skill_offered := "React", skill_wanted := "Cooking",
           status := RequestStatus.declined, created_at := 3, updated_at := 4 }]
        102 5 RequestStatus.accepted 9 :=
  respond_overwrites_terminal_status _ 102 5 RequestStatus.accepted 9 _
    (List.mem_singleton.mpr rfl) rfl rfl (Or.inl rfl) (Or.inl rfl)

namespace ProfileView

/-- Visibility of a `profiles` row under the two SELECT policies of
`scripts/create-tables.sql`: everyone sees public rows, the owner sees
their own row. -/
def rlsProfileVisible (requester : Option Nat) (p : Profile) : Bool :=
  p.is_public || requester == some p.user_id

/-- Embeds the viewed-profile query of `fetchProfiles` on the profile view
page: `from("profiles").select("*").eq("id", params.id).eq("is_public", true).single()`
evaluated as `requester` under row-level security. `.single()` succeeds
exactly when one row matches; on failure the page shows
"Profile not found or not public". -/
def fetchProfiles (db : List Profile) (requester : Option Nat) (profileId : Nat) :
    Option Profile :=
  match db.filter (fun p => p.id == profileId && p.is_public && rlsProfileVisible requester p) with
  | [p] => some p
  | _ => none

/-- Outcome of `handleSendRequest` on the profile view page. -/
structure SendOutcome where
  redirectedToLogin : Bool
  errorMessage : Option String
  db : List SkillRequest
deriving DecidableEq, Repr

/-- Embeds `handleSendRequest` of the profile view page: with no
authenticated user, no viewed profile, or no own profile the page redirects
to login; with an empty (after trimming) message or an unselected skill it
reports "Please fill in all fields" and performs no insert; otherwise it
inserts a new row with `status: "pending"`, the trimmed message, and the
sender and receiver user ids. -/
def handleSendRequest (db : List SkillRequest)
    (user : Option Nat) (profile : Option Profile) (currentUserProfile : Option Profile)
    (requestMessage selectedSkillOffered selectedSkillWanted : String)
    (newId now : Nat) : SendOutcome :=
  match user, profile, currentUserProfile with
  | some uid, some prof, some _ =>
    if jsTrim requestMessage = "" ∨ selectedSkillOffered = "" ∨ selectedSkillWanted = "" then
      { redirectedToLogin := false, errorMessage := some "Please fill in all fields", db := db }
    else
      { redirectedToLogin := false, errorMessage := none,
        db := db ++ [{ id := newId, from_user_id := uid, to_user_id := prof.user_id,
                       message := jsTrim requestMessage,
                       skill_offered := selectedSkillOffered,
                       skill_wanted := selectedSkillWanted,
                       status := RequestStatus.pending,
                       created_at := now, updated_at := now }] }
  | _, _, _ => { redirectedToLogin := true, errorMessage := none, db := db }

end ProfileView

/-- C5: an attempt to send a skill-exchange request whose message is empty
or whitespace-only, or whose offered or wanted skill is unselected, fails
validation with the error "Please fill in all fields" and performs no
insert: the set of SkillRequests is unchanged. -/
theorem sendRequest_validation_spec (db : List SkillRequest) (uid : Nat)
    (prof cup : Profile) (msg so sw : String) (newId now : Nat)
    (hval : jsTrim msg = "" ∨ so = "" ∨ sw = "") :
    (ProfileView.handleSendRequest db (some uid) (some prof) (some cup)
        msg so sw newId now).errorMessage = some "Please fill in all fields" ∧
    (ProfileView.handleSendRequest db (some uid) (some prof) (some cup)
        msg so sw newId now).db = db := by
  simp only [ProfileView.handleSendRequest]
  rw [if_pos hval]
  exact ⟨rfl, rfl⟩

/-- Witness for C5: a whitespace-only message is rejected and inserts
nothing. -/
theorem sendRequest_validation_spec_witness :
    (ProfileView.handleSendRequest [] (some 101) (some bobProfile) (some aliceProfile)
        "   " "React" "Cooking" 6 7).errorMessage = some "Please fill in all fields" ∧
    (ProfileView.handleSendRequest [] (some 101) (some bobProfile) (some aliceProfile)
        "   " "React" "Cooking" 6 7).db = [] :=
  sendRequest_validation_spec [] 101 bobProfile aliceProfile "   " "React" "Cooking" 6 7
    (Or.inl (by decide))

/-- C4: every SkillRequest created by a send has status pending at
creation, and a principal different from the to_user_id of a request leaves the
request untouched when issuing the respond update (the UPDATE policy only
lets the receiver change it). -/
theorem request_pending_and_receiver_only_spec (db : List SkillRequest)
    (user : Option Nat) (profile currentUserProfile : Option Profile)
    (msg so sw : String) (newId now : Nat)
    (uid requestId : Nat) (action : RequestStatus) (now2 : Nat) :
    (∀ r ∈ (ProfileView.handleSendRequest db user profile currentUserProfile
        msg so sw newId now).db,
      r ∉ db → r.status = RequestStatus.pending) ∧
    List.Forall₂ (fun r' r => uid ≠ r.to_user_id → r' = r)
      (Dashboard.handleRequestAction db uid requestId action now2) db := by
  constructor
  · intro r hr hnotin
    rcases user with _ | u <;> rcases profile with _ | prof <;>
      rcases currentUserProfile with _ | c <;>
      simp only [ProfileView.handleSendRequest] at hr
    all_goals try exact absurd hr hnotin
    by_cases hval : jsTrim msg = "" ∨ so = "" ∨ sw = ""
    · rw [if_pos hval] at hr
      exact absurd hr hnotin
    · rw [if_neg hval] at hr
      rcases List.mem_append.mp hr with h | h
      · exact absurd h hnotin
      · rw [List.mem_singleton.mp h]
  · unfold Dashboard.handleRequestAction
    induction db with
    | nil => exact List.Forall₂.nil
    | cons a l ih =>
      refine List.Forall₂.cons ?_ ih
      intro hne
      show (if a.id = requestId ∧ uid = a.to_user_id then
        { a with status := action, updated_at := now2 } else a) = a
      rw [if_neg]
      rintro ⟨-, hrecv⟩
      exact hne hrecv

/-- Witness for C4: the request inserted by a concrete send is pending, and
a non-receiver principal (103) leaves a request addressed to 102 unchanged. -/
theorem request_pending_and_receiver_only_spec_witness :
    ({ id := 6, from_user_id := 101, to_user_id := 102, message := "hello",
       skill_offered := "React", skill_wanted := "Cooking",
       status := RequestStatus.pending, created_at := 7,
       updated_at := 7 : SkillRequest }).status = RequestStatus.pending ∧
    Dashboard.handleRequestAction
        [{ id := 5, from_user_id := 101, to_user_id := 102, message := "hi",
           skill_offered := "React", skill_wanted := "Cooking",
           status := RequestStatus.pending, created_at := 3, updated_at := 4 }]
        103 5 RequestStatus.accepted 9 =
      [{ id := 5, from_user_id := 101, to_user_id := 102, message := "hi",
         skill_offered := "React", skill_wanted := "Cooking",
         status := RequestStatus.pending, created_at := 3, updated_at := 4 }] := by
  constructor
  · exact (request_pending_and_receiver_only_spec [] (some 101) (some bobProfile)
      (some aliceProfile) "hello" "React" "Cooking" 6 7 103 5 RequestStatus.accepted 9).1
      _ (by decide) (by decide)
  · decide

/-- C3: the profile view returns a profile only when it is public (and so
in particular only when it is public or owned by the requester); a private
profile looked up by a non-owner and a nonexistent id both produce the same
"not found" outcome, indistinguishable to the requester. -/
theorem profile_visibility_spec (db : List Profile) (req : Option Nat) (pid : Nat) :
    (∀ p, ProfileView.fetchProfiles db req pid = some p →
      p.is_public = true ∨ req = some p.user_id) ∧
    ((∀ p ∈ db, p.id = pid → p.is_public = false ∧ req ≠ some p.user_id) →
      ProfileView.fetchProfiles db req pid = none) ∧
    ((∀ p ∈ db, p.id ≠ pid) → ProfileView.fetchProfiles db req pid = none) := by
  refine ⟨?_, ?_, ?_⟩
  · intro p hp
    unfold ProfileView.fetchProfiles at hp
    cases hfil : db.filter
        (fun q => q.id == pid && q.is_public && ProfileView.rlsProfileVisible req q) with
    | nil =>
      rw [hfil] at hp
      simp at hp
    | cons q rest =>
      cases rest with
      | nil =>
        rw [hfil] at hp
        simp only [Option.some.injEq] at hp
        rw [← hp]
        have hq : q ∈ db.filter
            (fun q => q.id == pid && q.is_public && ProfileView.rlsProfileVisible req q) := by
          rw [hfil]
          exact List.mem_cons_self _ _
        have := (List.mem_filter.mp hq).2
        simp only [Bool.and_eq_true] at this
        exact Or.inl this.1.2
      | cons q2 rest2 =>
        rw [hfil] at hp
        simp at hp
  · intro h
    unfold ProfileView.fetchProfiles
    rw [List.filter_eq_nil_iff.mpr ?_]
    intro q hq
    simp only [Bool.and_eq_true, beq_iff_eq, not_and, ProfileView.rlsProfileVisible,
      Bool.or_eq_true]
    rintro ⟨hid, hpub⟩
    obtain ⟨hpub', hown⟩ := h q hq hid
    rw [hpub] at hpub'
    exact absurd hpub' (by decide)
  · intro h
    unfold ProfileView.fetchProfiles
    rw [List.filter_eq_nil_iff.mpr ?_]
    intro q hq
    simp only [Bool.and_eq_true, beq_iff_eq]
    rintro ⟨⟨hid, -⟩, -⟩
    exact h q hq hid

/-- Witness for C3: with a single private profile owned by 102, the
requester 101 gets "not found" both for its id and for an absent id. -/
theorem profile_visibility_spec_witness :
    ProfileView.fetchProfiles
        [{ aliceProfile with is_public := false, user_id := 102 }] (some 101) 1 = none ∧
    ProfileView.fetchProfiles
        [{ aliceProfile with is_public := false, user_id := 102 }] (some 101) 99 = none :=
  ⟨(profile_visibility_spec _ (some 101) 1).2.1
      (fun p hp hid => by
        simp only [List.mem_singleton] at hp
        subst hp
        exact ⟨rfl, by decide⟩),
   (profile_visibility_spec _ (some 101) 99).2.2
      (fun p hp => by
        simp only [List.mem_singleton] at hp
        subst hp
        decide)⟩

namespace CreateProfile

/-- Result of the existing-profile check on the create page. -/
inductive CheckResult where
  | redirectDashboard
  | stay
deriving DecidableEq, Repr

/-- Embeds `checkExistingProfile` of `app/profile/create/page.tsx`: the
page queries `profiles` with `.eq("user_id", user.id).single()` (the owner
SELECT policy always shows a principal its own row); if a row comes back it
redirects to the dashboard instead of showing the create form. -/
def checkExistingProfile (db : List Profile) (uid : Nat) : CheckResult :=
  if db.any (fun p => p.user_id == uid) then CheckResult.redirectDashboard
  else CheckResult.stay

/-- Form state of the create page. -/
structure CreateFormData where
  name : String
  location : String
  bio : String
  skills_offered : List String
  skills_wanted : List String
  availability : String
  is_public : Bool
deriving DecidableEq, Repr

/-- Embeds the `supabase.from("profiles").upsert(...)` call of
`handleSubmit` against the schema of `scripts/create-tables.sql`: the
posted row carries a freshly generated primary key, so the only constraint
it can collide with is `UNIQUE(user_id)`; upsert conflict resolution
targets the primary key only, hence an existing row with the same
`user_id` makes the statement fail with a unique violation, leaving the
table unchanged, and otherwise the row is inserted. -/
def upsertProfile (db : List Profile) (row : Profile) : Option String × List Profile :=
  if db.any (fun p => p.user_id == row.user_id) then
    (some "duplicate key value violates unique constraint", db)
  else (none, db ++ [row])

/-- Embeds `handleSubmit` of the create page: the row is built from the
form (empty location and bio become null via `|| null`) and upserted. -/
def handleSubmit (db : List Profile) (uid : Nat) (email : String)
    (fd : CreateFormData) (newId now : Nat) : Option String × List Profile :=
  upsertProfile db
    { id := newId, user_id := uid, name := fd.name, email := email,
      location := if fd.location = "" then none else some fd.location,
      bio := if fd.bio = "" then none else some fd.bio,
      avatar_url := none,
      skills_offered := fd.skills_offered, skills_wanted := fd.skills_wanted,
      availability := fd.availability, is_public := fd.is_public,
      created_at := now, updated_at := now }

end CreateProfile

/-- Number of `profiles` rows owned by a given principal. -/
def countProfilesFor (db : List Profile) (q : Nat) : Nat :=
  (db.filter fun p => p.user_id == q).length

/-- Upsert preserves the at-most-one-row-per-principal bound. -/
theorem upsertProfile_count_le (db : List Profile) (row : Profile) (q : Nat)
    (hq : countProfilesFor db q ≤ 1) :
    countProfilesFor (CreateProfile.upsertProfile db row).2 q ≤ 1 := by
  unfold CreateProfile.upsertProfile
  by_cases hexists : db.any (fun p => p.user_id == row.user_id) = true
  · rw [if_pos hexists]
    exact hq
  · rw [if_neg hexists]
    show countProfilesFor (db ++ [row]) q ≤ 1
    unfold countProfilesFor
    rw [List.filter_append, List.length_append]
    have hfalse : db.any (fun p => p.user_id == row.user_id) = false := by
      simpa using hexists
    by_cases hquid : q = row.user_id
    · subst hquid
      have h2 : (List.filter (fun p => p.user_id == row.user_id) db).length = 0 := by
        rw [List.length_eq_zero, List.filter_eq_nil_iff]
        exact List.any_eq_false.mp hfalse
      have h3 : (List.filter (fun p => p.user_id == row.user_id) [row]).length ≤ 1 :=
        le_trans (List.length_filter_le _ _) (by simp)
      omega
    · have hne : (row.user_id == q) = false :=
        beq_eq_false_iff_ne.mpr fun h => hquid h.symm
      have h3 : (List.filter (fun p => p.user_id == q) [row]).length = 0 := by
        simp [List.filter, hne]
      unfold countProfilesFor at hq
      omega

/-- C2: at most one profile row per principal: when a profile for the
principal already exists the create page redirects to the dashboard, a
submitted create against an existing row leaves the table unchanged, and a
submit never raises the per-principal row count above one. -/
theorem profile_uniqueness_spec (db : List Profile) (uid : Nat) (email : String)
    (fd : CreateProfile.CreateFormData) (newId now : Nat) :
    ((∃ p ∈ db, p.user_id = uid) →
      CreateProfile.checkExistingProfile db uid =
        CreateProfile.CheckResult.redirectDashboard) ∧
    ((∃ p ∈ db, p.user_id = uid) →
      (CreateProfile.handleSubmit db uid email fd newId now).2 = db) ∧
    (∀ q, countProfilesFor db q ≤ 1 →
      countProfilesFor (CreateProfile.handleSubmit db uid email fd newId now).2 q ≤ 1) := by
  refine ⟨?_, ?_, ?_⟩
  · rintro ⟨p, hp, hu⟩
    unfold CreateProfile.checkExistingProfile
    rw [if_pos]
    exact List.any_eq_true.mpr ⟨p, hp, by simp [hu]⟩
  · rintro ⟨p, hp, hu⟩
    unfold CreateProfile.handleSubmit CreateProfile.upsertProfile
    rw [if_pos]
    exact List.any_eq_true.mpr ⟨p, hp, by simp [hu]⟩
  · intro q hq
    exact upsertProfile_count_le db _ q hq

/-- Witness for C2: with an existing profile for principal 101, the create
page redirects, a resubmitted create leaves the table unchanged, and the
row count for 101 stays at one. -/
theorem profile_uniqueness_spec_witness :
    CreateProfile.checkExistingProfile [aliceProfile] 101 =
      CreateProfile.CheckResult.redirectDashboard ∧
    (CreateProfile.handleSubmit [aliceProfile] 101 "alice@example.com"
        { name := "Alice", location := "", bio := "", skills_offered := [],
          skills_wanted := [], availability := "flexible", is_public := true }
        9 9).2 = [aliceProfile] ∧
    countProfilesFor (CreateProfile.handleSubmit [aliceProfile] 101 "alice@example.com"
        { name := "Alice", location := "", bio := "", skills_offered := [],
          skills_wanted := [], availability := "flexible", is_public := true }
        9 9).2 101 ≤ 1 :=
  ⟨(profile_uniqueness_spec [aliceProfile] 101 "alice@example.com"
      { name := "Alice", location := "", bio := "", skills_offered := [],
        skills_wanted := [], availability := "flexible", is_public := true }
      9 9).1 ⟨aliceProfile, List.mem_singleton.mpr rfl, rfl⟩,
   (profile_uniqueness_spec [aliceProfile] 101 "alice@example.com"
      { name := "Alice", location := "", bio := "", skills_offered := [],
        skills_wanted := [], availability := "flexible", is_public := true }
      9 9).2.1 ⟨aliceProfile, List.mem_singleton.mpr rfl, rfl⟩,
   (profile_uniqueness_spec [aliceProfile] 101 "alice@example.com"
      { name := "Alice", location := "", bio := "", skills_offered := [],
        skills_wanted := [], availability := "flexible", is_public := true }
      9 9).2.2 101 (by decide)⟩
